import Mathlib

/-!
Verification of the address-map / bus-fabric composition subsystem of
litex_verilog_axi_test (`src/sim.py`).

The repository's visible file is structural glue: it declares bus slaves
with address regions, allocates AXI/AXI-Lite interfaces with chosen
widths, and interposes protocol/width adapters.  The Region Registry,
Fabric Descriptor and Adapter Resolver that the design document
describes are not present under `src/` (only their call sites in the two
test functions are), so those components are modelled here from the
design document; the concrete declaration data (slave names, region
sizes, interface widths, identifier widths, debug guards) is embedded
directly from `src/sim.py`.
-/

namespace LitexVerilogAxiTest

/-! ## Region Registry -/

/-- An address region: a named half-open range `[base, base+size)`.
Modelled from the spec data model: `Region: {name, base: u64, size: u64}`
(bases and sizes are machine words; the values appearing in this file are
far below `2^64`, so `Nat` arithmetic agrees with `u64` arithmetic). -/
structure Region where
  name : String
  base : Nat
  size : Nat
deriving DecidableEq, Repr

/-- The half-open ranges `[a.base, a.base+a.size)` and
`[b.base, b.base+b.size)` have a common point. -/
def Region.intersects (a b : Region) : Bool :=
  decide (max a.base b.base < min (a.base + a.size) (b.base + b.size))

/-- Error reported when a requested region collides with a registered one.
Modelled from the spec: `OverlapError{existing_name, requested}`. -/
structure OverlapError where
  existing_name : String
  requested : Region
deriving DecidableEq, Repr

/-- Modelled from the spec: the Region Registry's
`register(name, base, size) -> Result<(), OverlapError>`, absent from
`src/` (only its call sites, the `bus.add_slave` calls of
`axi_integration_test`, are visible).  Fails with
`OverlapError{existing_name, requested}` when `[base, base+size)`
intersects a previously registered region; otherwise appends the region,
keeping registration order. -/
def register (regs : List Region) (name : String) (base size : Nat) :
    Except OverlapError (List Region) :=
  let req : Region := ⟨name, base, size⟩
  match regs.find? (fun e => e.intersects req) with
  | some e => .error ⟨e.name, req⟩
  | none => .ok (regs ++ [req])

/-- The registry invariant: the ranges of any two distinct registered
regions do not intersect. -/
def RegistryDisjoint (regs : List Region) : Prop :=
  ∀ a ∈ regs, ∀ b ∈ regs, a ≠ b → a.intersects b = false

instance : DecidablePred RegistryDisjoint := fun regs =>
  decidable_of_iff (∀ a ∈ regs, ∀ b ∈ regs, a ≠ b → a.intersects b = false)
    Iff.rfl

/-! ## Bus Fabric Descriptor -/

/-- Role tag of a bus endpoint. -/
inductive Role where
  | master
  | slave
deriving DecidableEq, Repr

/-- Protocol variant of a bus endpoint: AXI-Lite (`AXILiteInterface` in the
source) or full AXI (`AXIInterface`). -/
inductive Protocol where
  | lite
  | full
deriving DecidableEq, Repr

/-- A declared bus participant.  Modelled from the spec data model:
`Endpoint: {name, role: Master|Slave, data_width, address_width, id_width}`,
extended with the protocol variant that the Adapter Resolver's decision
table discriminates on (lite vs full). -/
structure Endpoint where
  name : String
  role : Role
  protocol : Protocol
  data_width : Nat
  address_width : Nat
  id_width : Nat
deriving DecidableEq, Repr

/-- Modelled from the spec: the FabricDescriptor owns an ordered sequence
of endpoints and a Region Registry mapping slave endpoints (by name) to
regions. -/
structure FabricDescriptor where
  endpoints : List Endpoint
  registry : List Region
deriving DecidableEq, Repr

def FabricDescriptor.empty : FabricDescriptor := ⟨[], []⟩

/-- Modelled from the spec: `add_endpoint(endpoint)` records the endpoint,
in registration order. -/
def add_endpoint (d : FabricDescriptor) (e : Endpoint) : FabricDescriptor :=
  { d with endpoints := d.endpoints ++ [e] }

/-- Modelled from the spec: `bind_slave` forwards to the Region Registry's
`register` and fails with the same `OverlapError` if it propagates. -/
def bind_slave (d : FabricDescriptor) (name : String) (base size : Nat) :
    Except OverlapError FabricDescriptor :=
  match register d.registry name base size with
  | .error err => .error err
  | .ok regs => .ok { d with registry := regs }

/-- Modelled from the spec: `masters()` — the master endpoints, in
registration order. -/
def masters (d : FabricDescriptor) : List Endpoint :=
  d.endpoints.filter (fun e => e.role == Role.master)

/-- Modelled from the spec: `slaves()` — the slave endpoints, in
registration order. -/
def slaves (d : FabricDescriptor) : List Endpoint :=
  d.endpoints.filter (fun e => e.role == Role.slave)

/-- Register a sequence of endpoints, in order, on an empty descriptor. -/
def buildDescriptor (es : List Endpoint) : FabricDescriptor :=
  es.foldl add_endpoint FabricDescriptor.empty

/-- Structural inconsistency reported by `finalize`.  Modelled from the
spec: `ValidationError`. -/
structure ValidationError where
  message : String
deriving DecidableEq, Repr

def isPow2 (n : Nat) : Bool :=
  n != 0 && (n &&& (n - 1)) == 0

/-- Modelled from the spec data-model invariant: widths are positive
powers-of-two values consistent with the protocol
(`data_width ∈ {8,16,32,64,128,...}`). -/
def widthSupported (e : Endpoint) : Bool :=
  isPow2 e.data_width && decide (8 ≤ e.data_width) &&
    decide (0 < e.address_width) && decide (0 < e.id_width)

/-- Bool check that registered regions are pairwise non-intersecting and
pairwise differently named. -/
def registryPairwiseOk : List Region → Bool
  | [] => true
  | r :: rs =>
    rs.all (fun e => !(r.intersects e) && e.name != r.name) &&
      registryPairwiseOk rs

/-- Modelled from the spec: the `finalize()` validation pass — checks that
(a) no two slaves share a region (region ranges pairwise disjoint, names
distinct, each slave bound to exactly one region), (b) every master has at
least one reachable slave (the fabric is flat, so any bound slave is
reachable), and (c) width/id parameters are within supported ranges. -/
def finalize (d : FabricDescriptor) : Except ValidationError Unit :=
  if !(registryPairwiseOk d.registry) then
    .error ⟨"region overlap"⟩
  else if !((slaves d).all (fun e =>
      (d.registry.filter (fun r => r.name == e.name)).length == 1)) then
    .error ⟨"slave without exactly one region"⟩
  else if !((masters d).all (fun _ => !(slaves d).isEmpty)) then
    .error ⟨"master without reachable slave"⟩
  else if !(d.endpoints.all widthSupported) then
    .error ⟨"unsupported width parameter"⟩
  else
    .ok ()

/-! ## Adapter Resolver -/

/-- One bridging component interposed between a master and a slave. -/
inductive AdapterStep where
  | protocolConversion
  | widthConversion (width : Nat)
deriving DecidableEq, Repr

def AdapterStep.isWidthConversion : AdapterStep → Bool
  | .widthConversion _ => true
  | _ => false

/-- Modelled from the spec: `resolve(master, slave) -> AdapterPlan`, the
decision table of §4.3 — equal widths and same protocol give a direct
connection (empty step list); a protocol mismatch inserts a
protocol-conversion adapter first; a data-width mismatch inserts a
width-conversion adapter sized to the wider side after it. -/
def resolve (m s : Endpoint) : List AdapterStep :=
  (if m.protocol = s.protocol then [] else [AdapterStep.protocolConversion]) ++
    (if m.data_width = s.data_width then []
     else [AdapterStep.widthConversion (max m.data_width s.data_width)])

/-- Adapter resolution failure for one master/slave pair.  Modelled from
the spec: `UnsupportedConversionError`, carrying the pair's names. -/
structure UnsupportedConversionError where
  master_name : String
  slave_name : String
deriving DecidableEq, Repr

/-- Modelled from the spec: the supported identifier-width range of the
adapter chain (the spec's failure example is "identifier width mismatch
beyond a supported range").  The chain can forward a master's identifiers
into an at-least-as-wide slave identifier field; a narrowing mismatch is
beyond the supported range. -/
def idBridgeable (m s : Endpoint) : Bool :=
  decide (m.id_width ≤ s.id_width)

/-- Plan one master/slave pair: fails with `UnsupportedConversionError`
when no adapter chain bridges the pair (identifier width mismatch beyond
the supported range), otherwise resolves the adapter plan. -/
def planPair (m s : Endpoint) :
    Except UnsupportedConversionError (List AdapterStep) :=
  if idBridgeable m s then .ok (resolve m s)
  else .error ⟨m.name, s.name⟩

/-- Outcome of the planning pass: the plans of the pairs that resolved,
and every collected error. -/
structure PlanReport where
  plans : List (String × String × List AdapterStep)
  errors : List UnsupportedConversionError
deriving DecidableEq, Repr

/-- Modelled from the spec: the planning pass over all master/slave pairs.
A pair whose resolution fails contributes an `UnsupportedConversionError`
to the collected error list — fatal only to that pair's wiring — and the
pass continues with the remaining pairs, so a single invocation reports
every problem at once. -/
def planAll : List (Endpoint × Endpoint) → PlanReport
  | [] => ⟨[], []⟩
  | (m, s) :: rest =>
    let r := planAll rest
    match planPair m s with
    | .ok plan => ⟨(m.name, s.name, plan) :: r.plans, r.errors⟩
    | .error e => ⟨r.plans, e :: r.errors⟩

/-! ## Concrete declarations of `src/sim.py` -/

/-- A slave endpoint as declared by `axi_integration_test`: the bus-facing
interface is `AXILiteInterface(data_width=32, address_width=32)` and the
spec's input example assigns `id_width: 1` (matching the converter chain's
`AXIInterface(..., id_width=1)`). -/
def slaveEndpoint (name : String) : Endpoint :=
  ⟨name, Role.slave, Protocol.lite, 32, 32, 1⟩

/-- The five `bus.add_slave` names of `axi_integration_test`, in
declaration order (src/sim.py lines 117, 144, 145, 172, 192). -/
def integrationSlaveNames : List String :=
  ["axi_ram", "axi_dp_ram_a", "axi_dp_ram_b", "axi_ram_reg", "axi_ram_fifo"]

def integrationEndpoints : List Endpoint :=
  integrationSlaveNames.map slaveEndpoint

/-- The descriptor built by registering the integration test's slaves in
declaration order. -/
def integrationDescriptor : FabricDescriptor :=
  buildDescriptor integrationEndpoints

/-- The spec's scenario descriptor before binding: the first three slaves
of the integration test. -/
def scenarioDescriptor0 : FabricDescriptor :=
  buildDescriptor ((["axi_ram", "axi_dp_ram_a", "axi_dp_ram_b"]).map
    slaveEndpoint)

/-- The spec's scenario: bind `axi_ram@[0x1000,0x2000)`,
`axi_dp_ram_a@[0x2000,0x3000)`, `axi_dp_ram_b@[0x3000,0x4000)`. -/
def scenarioDescriptor : Except OverlapError FabricDescriptor := do
  let d1 ← bind_slave scenarioDescriptor0 "axi_ram" 0x1000 0x1000
  let d2 ← bind_slave d1 "axi_dp_ram_a" 0x2000 0x1000
  bind_slave d2 "axi_dp_ram_b" 0x3000 0x1000

/-- The scenario descriptor after the three successful bindings. -/
def scenarioFinal : FabricDescriptor :=
  ⟨(["axi_ram", "axi_dp_ram_a", "axi_dp_ram_b"]).map slaveEndpoint,
   [⟨"axi_ram", 0x1000, 0x1000⟩, ⟨"axi_dp_ram_a", 0x2000, 0x1000⟩,
    ⟨"axi_dp_ram_b", 0x3000, 0x1000⟩]⟩

/-- One `self.bus.add_slave(name, s_axi_lite, region=SoCRegion(size=...))`
declaration of `axi_integration_test`, together with the parameters of the
`AXILiteInterface` connected to the bus. -/
structure BusSlaveDecl where
  name : String
  lite_data_width : Nat
  lite_address_width : Nat
  region_size : Nat
deriving DecidableEq, Repr

/-- The five bus-slave declarations of `axi_integration_test`
(src/sim.py lines 116-117, 142-145, 171-172, 191-192): each pairs an
`AXILiteInterface(data_width=32, address_width=32)` with a
`SoCRegion(size=0x1000)`. -/
def integrationBusSlaves : List BusSlaveDecl :=
  [⟨"axi_ram", 32, 32, 0x1000⟩,
   ⟨"axi_dp_ram_a", 32, 32, 0x1000⟩,
   ⟨"axi_dp_ram_b", 32, 32, 0x1000⟩,
   ⟨"axi_ram_reg", 32, 32, 0x1000⟩,
   ⟨"axi_ram_fifo", 32, 32, 0x1000⟩]

/-- Width parameters of one `AXIInterface(...)` construction in the
source. -/
structure AXIInterfaceDecl where
  data_width : Nat
  address_width : Nat
  id_width : Nat
deriving DecidableEq, Repr

/-- The `AXIInterface` values produced in `axi_integration_test` as the
output of an `AXILite2AXI` conversion of a bus-attached
`AXILiteInterface` (src/sim.py lines 119, 147, 148, 174, 194): all are
`AXIInterface(data_width=32, address_width=32, id_width=1)`. -/
def integrationLite2AxiOutputs : List AXIInterfaceDecl :=
  [⟨32, 32, 1⟩, ⟨32, 32, 1⟩, ⟨32, 32, 1⟩, ⟨32, 32, 1⟩, ⟨32, 32, 1⟩]

/-- Every `AXIInterface` created in `axi_syntax_test` (src/sim.py lines
73-74, 78, 82-83, 87-88, 92-93, 97-98 twice each, 102-103 twice each):
the adapter pair is 32/64-bit data, all others 32-bit, and every one has
`id_width=8`. -/
def axiSyntaxTestInterfaces : List AXIInterfaceDecl :=
  [⟨32, 32, 8⟩, ⟨64, 32, 8⟩,
   ⟨32, 32, 8⟩,
   ⟨32, 32, 8⟩, ⟨32, 32, 8⟩,
   ⟨32, 32, 8⟩, ⟨32, 32, 8⟩,
   ⟨32, 32, 8⟩, ⟨32, 32, 8⟩,
   ⟨32, 32, 8⟩, ⟨32, 32, 8⟩, ⟨32, 32, 8⟩, ⟨32, 32, 8⟩,
   ⟨32, 32, 8⟩, ⟨32, 32, 8⟩, ⟨32, 32, 8⟩, ⟨32, 32, 8⟩]

/-- The bus-attached converter chains of `axi_integration_test`: for each
bus slave, the full-AXI interfaces on the path from the `AXILite2AXI`
output to the terminal RAM (src/sim.py: `axi_ram` uses `s_axi`;
`axi_dp_ram_a`/`axi_dp_ram_b` use `s_axi_a`/`s_axi_b`; `axi_ram_reg` uses
`s_axi` then `s_axi_reg`; `axi_ram_fifo` uses `s_axi` then
`s_axi_fifo`). -/
def integrationChains : List (String × List AXIInterfaceDecl) :=
  [("axi_ram", [⟨32, 32, 1⟩]),
   ("axi_dp_ram_a", [⟨32, 32, 1⟩]),
   ("axi_dp_ram_b", [⟨32, 32, 1⟩]),
   ("axi_ram_reg", [⟨32, 32, 1⟩, ⟨32, 32, 1⟩]),
   ("axi_ram_fifo", [⟨32, 32, 1⟩, ⟨32, 32, 1⟩])]

/-- The constant guarding every debug branch of `axi_integration_test`:
both debug blocks read `if 0:` (src/sim.py lines 125 and 154). -/
def debugGuardConstant : Nat := 0

/-- Python truthiness of the guard: `if 0:` enters its body iff the
integer constant is nonzero. -/
def debugEnabled : Bool :=
  debugGuardConstant != 0

/-- The kinds of submodule added to the SoC by `axi_integration_test`. -/
inductive SubmoduleKind where
  | axiLite2Axi
  | axiRam
  | axiDpRam
  | axiRegisterSlice
  | axiFifo
  | axiAwDebug
  | axiWDebug
  | axiArDebug
  | axiRDebug
deriving DecidableEq, Repr

def SubmoduleKind.isDebug : SubmoduleKind → Bool
  | .axiAwDebug => true
  | .axiWDebug => true
  | .axiArDebug => true
  | .axiRDebug => true
  | _ => false

/-- The submodules `axi_integration_test` adds, in order, as a function of
the debug guard (src/sim.py lines 120-202): the AXI-RAM block (converter,
RAM, then four debug modules when the guard holds), the dual-port RAM
block (two converters, DPRAM, then eight debug modules when the guard
holds), the register block and the FIFO block. -/
def integrationSubmodulesWith (dbg : Bool) : List SubmoduleKind :=
  [.axiLite2Axi, .axiRam] ++
    (if dbg then [.axiAwDebug, .axiWDebug, .axiArDebug, .axiRDebug]
     else []) ++
    [.axiLite2Axi, .axiLite2Axi, .axiDpRam] ++
    (if dbg then
      [.axiAwDebug, .axiWDebug, .axiArDebug, .axiRDebug,
       .axiAwDebug, .axiWDebug, .axiArDebug, .axiRDebug]
     else []) ++
    [.axiLite2Axi, .axiRegisterSlice, .axiRam] ++
    [.axiLite2Axi, .axiFifo, .axiRam]

/-- The submodule sequence actually built by `AXISimSoC`. -/
def integrationSubmodules : List SubmoduleKind :=
  integrationSubmodulesWith debugEnabled

/-! ## Helper lemmas -/

theorem Region.intersects_comm (a b : Region) :
    a.intersects b = b.intersects a := by
  simp only [Region.intersects, Nat.max_comm b.base a.base,
    Nat.min_comm (b.base + b.size) (a.base + a.size)]

theorem register_mem_not_intersects {regs : List Region} {name : String}
    {base size : Nat} {regs' : List Region}
    (hok : register regs name base size = .ok regs') :
    regs' = regs ++ [⟨name, base, size⟩] ∧
      ∀ e ∈ regs, e.intersects ⟨name, base, size⟩ = false := by
  cases hfind : regs.find? (fun e => e.intersects ⟨name, base, size⟩) with
  | some e => simp [register, hfind] at hok
  | none =>
    simp only [register, hfind] at hok
    refine ⟨by injection hok with h; exact h.symm, ?_⟩
    intro e he
    have := List.find?_eq_none.mp hfind e he
    simpa using this

theorem register_preserves_disjoint {regs : List Region} {name : String}
    {base size : Nat} {regs' : List Region} (hd : RegistryDisjoint regs)
    (hok : register regs name base size = .ok regs') :
    RegistryDisjoint regs' := by
  obtain ⟨heq, hnin⟩ := register_mem_not_intersects hok
  subst heq
  intro a ha b hb hne
  rcases List.mem_append.mp ha with ha' | ha' <;>
    rcases List.mem_append.mp hb with hb' | hb'
  · exact hd a ha' b hb' hne
  · rw [List.mem_singleton.mp hb']
    exact hnin a ha'
  · rw [List.mem_singleton.mp ha', Region.intersects_comm]
    exact hnin b hb'
  · exact absurd (List.mem_singleton.mp ha' ▸ List.mem_singleton.mp hb' ▸ rfl)
      hne

theorem foldl_add_endpoint_endpoints (d : FabricDescriptor)
    (es : List Endpoint) :
    (es.foldl add_endpoint d).endpoints = d.endpoints ++ es := by
  induction es generalizing d with
  | nil => simp
  | cons e es ih =>
    simp [List.foldl_cons, ih, add_endpoint]

theorem buildDescriptor_endpoints (es : List Endpoint) :
    (buildDescriptor es).endpoints = es := by
  simp [buildDescriptor, foldl_add_endpoint_endpoints, FabricDescriptor.empty]

/-! ## Claim theorems -/

/-- Claim C1: for every pair of distinct regions held in the Region
Registry, the half-open ranges `[A.base, A.base+A.size)` and
`[B.base, B.base+B.size)` do not intersect; the invariant is preserved by
every successful `register` operation and by every successful `bind_slave`
operation (which forwards to `register`). -/
theorem registry_disjoint_invariant :
    (∀ (regs : List Region) (name : String) (base size : Nat)
        (regs' : List Region), RegistryDisjoint regs →
        register regs name base size = .ok regs' →
        RegistryDisjoint regs') ∧
    (∀ (d : FabricDescriptor) (name : String) (base size : Nat)
        (d' : FabricDescriptor), RegistryDisjoint d.registry →
        bind_slave d name base size = .ok d' →
        RegistryDisjoint d'.registry) := by
  refine ⟨fun regs name base size regs' hd hok =>
    register_preserves_disjoint hd hok, ?_⟩
  intro d name base size d' hd hok
  cases hreg : register d.registry name base size with
  | error e => simp [bind_slave, hreg] at hok
  | ok regs =>
    simp only [bind_slave, hreg] at hok
    injection hok with h
    subst h
    exact register_preserves_disjoint hd hreg

/-- Witness for C1: registering `axi_dp_ram_b@[0x3000,0x4000)` on the
already-disjoint two-region registry keeps the registry disjoint. -/
theorem registry_disjoint_invariant_witness :
    RegistryDisjoint
      [⟨"axi_ram", 0x1000, 0x1000⟩, ⟨"axi_dp_ram_a", 0x2000, 0x1000⟩,
       ⟨"axi_dp_ram_b", 0x3000, 0x1000⟩] :=
  registry_disjoint_invariant.1
    [⟨"axi_ram", 0x1000, 0x1000⟩, ⟨"axi_dp_ram_a", 0x2000, 0x1000⟩]
    "axi_dp_ram_b" 0x3000 0x1000 _ (by decide) (by rfl)

/-- Claim C2: `register(name, base, size)` fails with an `OverlapError`
iff the requested `[base, base+size)` intersects some previously
registered region; the error names a colliding existing region and
carries the request.  In the spec's scenario, binding
`axi_ram@[0x1000,0x2000)`, `axi_dp_ram_a@[0x2000,0x3000)`,
`axi_dp_ram_b@[0x3000,0x4000)` succeeds, `finalize()` succeeds, and a
fourth slave at `[0x1800,0x2800)` is rejected with an `OverlapError`
naming `axi_ram` and the new slave. -/
theorem register_overlap_error_iff :
    (∀ (regs : List Region) (name : String) (base size : Nat),
        (∃ err, register regs name base size = .error err) ↔
          ∃ e ∈ regs, e.intersects ⟨name, base, size⟩ = true) ∧
    (∀ (regs : List Region) (name : String) (base size : Nat)
        (err : OverlapError), register regs name base size = .error err →
        err.requested = ⟨name, base, size⟩ ∧
          ∃ e ∈ regs, e.name = err.existing_name ∧
            e.intersects ⟨name, base, size⟩ = true) ∧
    scenarioDescriptor = .ok scenarioFinal ∧
    finalize scenarioFinal = .ok () ∧
    register scenarioFinal.registry "slave4" 0x1800 0x1000 =
      .error ⟨"axi_ram", ⟨"slave4", 0x1800, 0x1000⟩⟩ := by
  refine ⟨?_, ?_, by rfl, by rfl, by rfl⟩
  · intro regs name base size
    constructor
    · rintro ⟨err, herr⟩
      cases hfind : regs.find? (fun e => e.intersects ⟨name, base, size⟩) with
      | some e =>
        exact ⟨e, List.mem_of_find?_eq_some hfind,
          by simpa using List.find?_some hfind⟩
      | none => simp [register, hfind] at herr
    · rintro ⟨e, he, hint⟩
      cases hfind : regs.find? (fun e => e.intersects ⟨name, base, size⟩) with
      | some e' => exact ⟨⟨e'.name, ⟨name, base, size⟩⟩, by simp [register, hfind]⟩
      | none =>
        have := List.find?_eq_none.mp hfind e he
        simp [hint] at this
  · intro regs name base size err herr
    cases hfind : regs.find? (fun e => e.intersects ⟨name, base, size⟩) with
    | some e =>
      simp only [register, hfind] at herr
      injection herr with h
      subst h
      exact ⟨rfl, e, List.mem_of_find?_eq_some hfind, rfl,
        by simpa using List.find?_some hfind⟩
    | none => simp [register, hfind] at herr

/-- Witness for C2: the scenario registry really does contain a region
intersecting the rejected fourth slave's range, obtained by applying the
iff to the concrete rejection. -/
theorem register_overlap_error_iff_witness :
    ∃ e ∈ scenarioFinal.registry,
      e.intersects ⟨"slave4", 0x1800, 0x1000⟩ = true :=
  (register_overlap_error_iff.1 scenarioFinal.registry "slave4"
      0x1800 0x1000).mp
    ⟨⟨"axi_ram", ⟨"slave4", 0x1800, 0x1000⟩⟩,
      register_overlap_error_iff.2.2.2.2⟩

/-- Claim C3: `masters()` and `slaves()` return the endpoints in exactly
registration (declaration) order — each equals the in-order filtering of
the registered sequence by role, hence is an order-preserving sublist of
it — and for the integration test's descriptor the slave order is
`axi_ram`, `axi_dp_ram_a`, `axi_dp_ram_b`, `axi_ram_reg`,
`axi_ram_fifo`. -/
theorem masters_slaves_registration_order :
    (∀ es : List Endpoint,
        masters (buildDescriptor es) =
            es.filter (fun e => e.role == Role.master) ∧
          slaves (buildDescriptor es) =
            es.filter (fun e => e.role == Role.slave) ∧
          (masters (buildDescriptor es)).Sublist es ∧
          (slaves (buildDescriptor es)).Sublist es) ∧
    (slaves integrationDescriptor).map (fun e => e.name) =
      ["axi_ram", "axi_dp_ram_a", "axi_dp_ram_b", "axi_ram_reg",
       "axi_ram_fifo"] := by
  constructor
  · intro es
    refine ⟨?_, ?_, ?_, ?_⟩
    · simp [masters, buildDescriptor_endpoints]
    · simp [slaves, buildDescriptor_endpoints]
    · rw [masters, buildDescriptor_endpoints]
      exact List.filter_sublist es
    · rw [slaves, buildDescriptor_endpoints]
      exact List.filter_sublist es
  · rfl

/-- Claim C4: a master/slave pair with equal data widths and the same
protocol variant resolves to a direct connection: the adapter plan is
empty. -/
theorem resolve_direct_connection (m s : Endpoint)
    (hw : m.data_width = s.data_width) (hp : m.protocol = s.protocol) :
    resolve m s = [] := by
  simp [resolve, hw, hp]

/-- Witness for C4: a 32-bit full-AXI master against a 32-bit full-AXI
slave connects directly. -/
theorem resolve_direct_connection_witness :
    resolve ⟨"m", Role.master, Protocol.full, 32, 32, 8⟩
      ⟨"s", Role.slave, Protocol.full, 32, 32, 8⟩ = [] :=
  resolve_direct_connection _ _ rfl rfl

/-- Claim C5: a master/slave pair with differing data widths and the same
protocol variant resolves to a plan whose only step is one
width-conversion adapter sized to the wider of the two data widths. -/
theorem resolve_width_conversion (m s : Endpoint)
    (hw : m.data_width ≠ s.data_width) (hp : m.protocol = s.protocol) :
    resolve m s =
        [AdapterStep.widthConversion (max m.data_width s.data_width)] ∧
      ((resolve m s).filter AdapterStep.isWidthConversion).length = 1 := by
  constructor
  · simp [resolve, hw, hp]
  · simp [resolve, hw, hp, AdapterStep.isWidthConversion]

/-- Witness for C5: a 32-bit master against a 64-bit slave of the same
protocol yields exactly the 64-bit width-conversion adapter. -/
theorem resolve_width_conversion_witness :
    resolve ⟨"m", Role.master, Protocol.full, 32, 32, 8⟩
      ⟨"s", Role.slave, Protocol.full, 64, 32, 8⟩ =
      [AdapterStep.widthConversion 64] :=
  (resolve_width_conversion ⟨"m", Role.master, Protocol.full, 32, 32, 8⟩
    ⟨"s", Role.slave, Protocol.full, 64, 32, 8⟩ (by decide) rfl).1

/-- Claim C6: when a pair needs both protocol conversion and width
conversion, the resolved plan lists the protocol-conversion adapter
strictly before the width-conversion adapter; and whenever the protocol
variants differ, protocol conversion is the plan's first step, hence
before any width adapter. -/
theorem resolve_protocol_before_width :
    (∀ m s : Endpoint, m.protocol ≠ s.protocol →
        m.data_width ≠ s.data_width →
        resolve m s =
          [AdapterStep.protocolConversion,
           AdapterStep.widthConversion (max m.data_width s.data_width)]) ∧
    (∀ m s : Endpoint, m.protocol ≠ s.protocol →
        (resolve m s).head? = some AdapterStep.protocolConversion) := by
  constructor
  · intro m s hp hw
    simp [resolve, hp, hw]
  · intro m s hp
    by_cases hw : m.data_width = s.data_width <;> simp [resolve, hp, hw]

/-- Witness for C6: a 32-bit lite master against a 64-bit full slave
resolves to protocol conversion first, then the 64-bit width adapter. -/
theorem resolve_protocol_before_width_witness :
    resolve ⟨"m", Role.master, Protocol.lite, 32, 32, 1⟩
      ⟨"s", Role.slave, Protocol.full, 64, 32, 1⟩ =
      [AdapterStep.protocolConversion, AdapterStep.widthConversion 64] :=
  resolve_protocol_before_width.1
    ⟨"m", Role.master, Protocol.lite, 32, 32, 1⟩
    ⟨"s", Role.slave, Protocol.full, 64, 32, 1⟩ (by decide) (by decide)

/-- Claim C7: the planning pass never aborts on a first
`UnsupportedConversionError`: for every pair list, the collected error
list holds exactly the errors of all failing pairs (in order) and the
plan list holds the plan of every bridgeable pair, so one invocation
reports all problems while the other pairs still resolve; concretely, a
failing pair followed by a healthy pair yields both the healthy plan and
the collected error. -/
theorem planAll_collects_all_errors :
    (∀ pairs : List (Endpoint × Endpoint),
        (planAll pairs).errors =
            (pairs.filter (fun p => !(idBridgeable p.1 p.2))).map
              (fun p => ⟨p.1.name, p.2.name⟩) ∧
          (planAll pairs).plans =
            (pairs.filter (fun p => idBridgeable p.1 p.2)).map
              (fun p => (p.1.name, p.2.name, resolve p.1 p.2))) ∧
    planAll
        [(⟨"m1", Role.master, Protocol.full, 32, 32, 8⟩,
          ⟨"s1", Role.slave, Protocol.full, 32, 32, 1⟩),
         (⟨"m2", Role.master, Protocol.full, 32, 32, 1⟩,
          ⟨"s2", Role.slave, Protocol.full, 32, 32, 1⟩)] =
      ⟨[("m2", "s2", [])], [⟨"m1", "s1"⟩]⟩ := by
  refine ⟨?_, by rfl⟩
  intro pairs
  induction pairs with
  | nil => simp [planAll]
  | cons p rest ih =>
    obtain ⟨m, s⟩ := p
    by_cases h : idBridgeable m s = true
    · simp [planAll, planPair, h, ih.1, ih.2]
    · have h' : idBridgeable m s = false := by simpa using h
      simp [planAll, planPair, h', ih.1, ih.2]

/-- Claim C8: every slave region registered on the SoC bus by
`axi_integration_test` has size exactly `0x1000`, every bus-facing slave
interface is a 32-bit-data, 32-bit-address `AXILiteInterface`, and the
five registered slaves are exactly `axi_ram`, `axi_dp_ram_a`,
`axi_dp_ram_b`, `axi_ram_reg`, `axi_ram_fifo`. -/
theorem integration_bus_slave_uniformity :
    integrationBusSlaves.all (fun s =>
        s.region_size == 0x1000 && s.lite_data_width == 32 &&
          s.lite_address_width == 32) = true ∧
    integrationBusSlaves.map (fun s => s.name) =
      ["axi_ram", "axi_dp_ram_a", "axi_dp_ram_b", "axi_ram_reg",
       "axi_ram_fifo"] :=
  ⟨by decide, by rfl⟩

/-- Claim C9: every full-AXI interface produced in the integration test by
`AXILite2AXI` conversion has `id_width` exactly 1, every interface of the
syntax test has `id_width` 8, and no bus-attached converter chain mixes
the two id widths. -/
theorem integration_id_width_uniformity :
    integrationLite2AxiOutputs.all (fun i => i.id_width == 1) = true ∧
    axiSyntaxTestInterfaces.all (fun i => i.id_width == 8) = true ∧
    integrationChains.all (fun c =>
        c.2.all (fun i => i.id_width == 1)) = true ∧
    integrationChains.all (fun c =>
        !(c.2.any (fun i => i.id_width == 1) &&
          c.2.any (fun i => i.id_width == 8))) = true :=
  ⟨by decide, by decide, by decide, by decide⟩

/-- Claim C10: the debug wiring branches of `axi_integration_test` are
unreachable — the guard constant `0` is falsy, so the built submodule
sequence coincides with the guard-off sequence and contains no
`AXIAWDebug`/`AXIWDebug`/`AXIARDebug`/`AXIRDebug` module. -/
theorem debug_branches_unreachable :
    debugEnabled = false ∧
    integrationSubmodules = integrationSubmodulesWith false ∧
    integrationSubmodules.all (fun s => !(s.isDebug)) = true ∧
    (integrationSubmodulesWith false).all (fun s => !(s.isDebug)) = true :=
  ⟨rfl, rfl, by decide, by decide⟩

end LitexVerilogAxiTest
